import Mathlib

/-!
Verification of the Receipt-Checker multi-provider verification pipeline.

The TypeScript sources are shallowly embedded: pure string processing
(whitespace normalization, regex-style reference search, JS `parseFloat`)
becomes executable Lean functions on `String` / `List Char`; effectful
acquisition code (puppeteer navigation, HTTP downloads) becomes functions
over an explicit environment recording which external steps succeed, and
the verifier control flow is reproduced over those environments.
-/

namespace ReceiptChecker

/-- Characters matched by the ECMAScript `\s` class (also trimmed by
`String.prototype.trim`): ASCII whitespace, the non-breaking space, and the
Unicode space separators. -/
def isJsWs (c : Char) : Bool :=
  c = ' ' || c = '\t' || c = '\n' || c = '\r' || c = '\x0b' || c = '\x0c' ||
  c = ' ' || c = ' ' || (0x2000 ≤ c.val && c.val ≤ 0x200A) ||
  c = ' ' || c = ' ' || c = ' ' || c = ' ' || c = '　' ||
  c = '﻿'

/-- JS truthiness of an optional string: `undefined`/`null` and `""` are falsy. -/
def jsT (s : Option String) : Bool :=
  match s with
  | none => false
  | some s => !(s = "")

/-- Numeric value of a list of decimal digit characters (most significant first). -/
def digitsToNat (l : List Char) : Nat :=
  l.foldl (fun a c => 10 * a + (c.toNat - 48)) 0

/-- Digits of the fractional part of a JS number literal: consumed only after
a leading decimal point. -/
def fracDigits (l : List Char) : List Char :=
  match l with
  | '.' :: r => r.takeWhile Char.isDigit
  | _ => []

/-- Model of ECMAScript `parseFloat` on receipt-style numeric strings: skip
leading whitespace, read an optional sign, an integer part and an optional
fraction, ignore everything after; `none` models `NaN` (no digits read).
Exponent notation and `Infinity`, which never occur in receipt amounts, are
outside the model. -/
def jsParseFloatL (l0 : List Char) : Option ℚ :=
  let l1 := l0.dropWhile isJsWs
  let sgn : Int :=
    match l1 with
    | '-' :: _ => -1
    | _ => 1
  let l2 : List Char :=
    match l1 with
    | '-' :: r => r
    | '+' :: r => r
    | _ => l1
  let ip := l2.takeWhile Char.isDigit
  let fp := fracDigits (l2.dropWhile Char.isDigit)
  if ip.isEmpty && fp.isEmpty then none
  else some (mkRat (sgn * (digitsToNat (ip ++ fp) : Int)) ((10 : Nat) ^ fp.length))

/-- Model of ECMAScript `parseFloat` on a string. -/
def jsParseFloat (s : String) : Option ℚ := jsParseFloatL s.data

/-- Model of `s.replace(/,/g, "")`: every comma is removed. -/
def stripCommas (s : String) : String := ⟨s.data.filter (fun c => !(c = ','))⟩

/-- Amount parsing shared by `parseCBEReceipt` and the Dashen/Awash
`extractAmount` helpers: `parseFloat(text.replace(/,/g, ""))`. -/
def parseAmountText (s : String) : Option ℚ := jsParseFloat (stripCommas s)

/-- One pass of `replace(/\s+/g, " ")`: every maximal run of JS whitespace
becomes a single space. The flag records whether the previous character was
part of a whitespace run (so the run's single space is already emitted). -/
def collapseWsAux : Bool → List Char → List Char
  | _, [] => []
  | prevWs, c :: rest =>
    if isJsWs c then
      if prevWs then collapseWsAux true rest
      else ' ' :: collapseWsAux true rest
    else c :: collapseWsAux false rest

/-- Model of `text.replace(/\s+/g, " ")`. -/
def collapseWs (l : List Char) : List Char := collapseWsAux false l

/-- Model of `String.prototype.trim`: JS whitespace removed from both ends. -/
def trimWsL (l : List Char) : List Char :=
  ((l.dropWhile isJsWs).reverse.dropWhile isJsWs).reverse

/-- RawText normalization used by `parseCBEReceipt` (and the other PDF-text
parsers): `pdf.text.replace(/\s+/g, " ").trim()`. -/
def cbeNormalize (s : String) : String := ⟨trimWsL (collapseWs s.data)⟩

/-- The Abyssinia upload-path `clean` helper:
`text.replace(/\s+/g, " ").replace(/ /g, " ").trim()`. -/
def abyssiniaClean (s : String) : String :=
  ⟨trimWsL ((collapseWs s.data).map (fun c => if c = ' ' then ' ' else c))⟩

/-- Character class `[A-Z0-9]` under the regex `i` flag: ASCII letters of
either case and digits. -/
def isRefChar (c : Char) : Bool :=
  ('A' ≤ c && c ≤ 'Z') || ('a' ≤ c && c ≤ 'z') || ('0' ≤ c && c ≤ '9')

/-- Attempt to match `/PRE[A-Z0-9]{minLen,}/i` at the head of `l`: the fixed
prefix `pre` (given uppercase) is compared case-insensitively, then the
greedy quantifier takes the maximal run of alphanumerics, which must have at
least `minLen` characters. Returns the matched characters in original case. -/
def tryRefMatchAt (pre : List Char) (minLen : Nat) (l : List Char) : Option (List Char) :=
  match pre, l with
  | [], rest =>
    let body := rest.takeWhile isRefChar
    if minLen ≤ body.length then some body else none
  | p :: ps, c :: cs =>
    if c.toUpper = p then (tryRefMatchAt ps minLen cs).map (fun m => c :: m)
    else none
  | _ :: _, [] => none

/-- Leftmost match of `/PRE[A-Z0-9]{minLen,}/i`, as `String.prototype.match`
without the `g` flag returns it. -/
def findRefMatch (pre : List Char) (minLen : Nat) : List Char → Option (List Char)
  | [] => none
  | c :: cs =>
    match tryRefMatchAt pre minLen (c :: cs) with
    | some m => some m
    | none => findRefMatch pre minLen cs

/-- The M-PESA `extractReference`:
`text.match(/UBH[A-Z0-9]{6,}/i)` followed by `.toUpperCase()`. -/
def mpesaExtractReference (s : String) : Option String :=
  (findRefMatch ['U', 'B', 'H'] 6 s.data).map (fun m => ⟨m.map Char.toUpper⟩)

/-- The Abyssinia `extractReference`:
`text.match(/FT[A-Z0-9]{10,}/i)` followed by `.toUpperCase()`. -/
def abyssiniaExtractReference (s : String) : Option String :=
  (findRefMatch ['F', 'T'] 10 s.data).map (fun m => ⟨m.map Char.toUpper⟩)

/-- JS `a || b` on optional strings: the first operand unless it is falsy. -/
def jsOrStr (a b : Option String) : Option String := if jsT a then a else b

/-- Reference resolution of `verifyMPesa`: `fileText` is the text extracted
from the uploaded file (`none` when no file was supplied). The code sets
`reference = refFromFile || reference` before fetching. -/
def mpesaResolveReference (inputRef : Option String) (fileText : Option String) :
    Except String String :=
  match fileText with
  | some t =>
    let refFromFile := mpesaExtractReference t
    if !jsT refFromFile && !jsT inputRef then
      Except.error "Transaction reference not found in file"
    else
      match jsOrStr refFromFile inputRef with
      | some r =>
        if r = "" then Except.error "Transaction reference or file is required"
        else Except.ok r
      | none => Except.error "Transaction reference or file is required"
  | none =>
    match inputRef with
    | some r =>
      if r = "" then Except.error "Transaction reference or file is required"
      else Except.ok r
    | none => Except.error "Transaction reference or file is required"

/-- Model of `s.trim().toUpperCase()`. -/
def jsTrimUpper (s : String) : String := ⟨(trimWsL s.data).map Char.toUpper⟩

/-- Reference resolution of `verifyDashen` (dashen.verifier.ts): a truthy
explicit reference is trimmed and uppercased and the file is not inspected;
only otherwise is the file-extracted reference (`fileRef`, the inner option
being the extraction outcome) used. -/
def dashenResolveReference (inputRef : Option String) (fileRef : Option (Option String)) :
    Except String String :=
  let tr : Option String :=
    if jsT inputRef then some (jsTrimUpper (inputRef.getD ""))
    else
      match fileRef with
      | some ext => ext
      | none => none
  match tr with
  | some r =>
    if r = "" then Except.error "Reference or file is required"
    else Except.ok r
  | none => Except.error "Reference or file is required"

/-- Reference resolution of `verifyAbyssinia` (abyssinia.verifier.ts): when a
file is supplied, `finalReference` is unconditionally replaced by the
file-extracted reference; the explicit `reference` parameter is only used
when no file is given. -/
def abyssiniaResolveReference (reference accountSuffix : String) (fileText : Option String) :
    Except String String :=
  match fileText with
  | some t =>
    match abyssiniaExtractReference t with
    | none => Except.error "Transaction reference not found in uploaded file"
    | some fr =>
      if fr = "" || accountSuffix = "" then
        Except.error "Reference and account suffix are required"
      else Except.ok fr
  | none =>
    if reference = "" || accountSuffix = "" then
      Except.error "Reference and account suffix are required"
    else Except.ok reference

/-- No two adjacent characters are both JS whitespace. -/
def noAdjWs : List Char → Bool
  | a :: b :: rest => (!(isJsWs a && isJsWs b)) && noAdjWs (b :: rest)
  | _ => true

/-- The RawText shape promised by the spec: every whitespace character is a
plain space, whitespace runs have length one, and there is no leading or
trailing whitespace. -/
def isNormalizedWs (l : List Char) : Bool :=
  l.all (fun c => !isJsWs c || c = ' ') && noAdjWs l &&
  (match l.head? with | some c => !isJsWs c | none => true) &&
  (match l.getLast? with | some c => !isJsWs c | none => true)

/-- Is `pat` a prefix of `l` (character-wise equality). -/
def startsWithL (l pat : List Char) : Bool :=
  match l, pat with
  | _, [] => true
  | [], _ :: _ => false
  | a :: as, b :: bs => a = b && startsWithL as bs

/-- Is `pat` a contiguous substring of `l` (JS `String.prototype.includes`). -/
def hasInfixL (pat : List Char) : List Char → Bool
  | [] => startsWithL [] pat
  | c :: cs => startsWithL (c :: cs) pat || hasInfixL pat cs

/-- Model of `s.toLowerCase()`. -/
def toLowerStr (s : String) : String := ⟨s.data.map Char.toLower⟩

/-- The Telebirr receipt as produced by `TelebirrVerifier.parseReceipt`
(which guarantees the amount is a parsed number, not NaN, and the date is
valid). -/
structure TelebirrReceiptM where
  reference : String
  receiptNo : String
  amount : ℚ
  payer : Option String
  receiver : Option String
  status : String
  dateStr : String

/-- Status words accepted by `TelebirrVerifier.validateReceipt`. -/
def telebirrValidStatusWords : List String := ["success", "paid", "complete"]

/-- The status test: `validStatus.some(word => status.toLowerCase().includes(word))`. -/
def telebirrStatusOk (status : String) : Bool :=
  telebirrValidStatusWords.any (fun w => hasInfixL w.data (toLowerStr status).data)

/-- `TelebirrVerifier.validateReceipt`. `!receipt.amount || receipt.amount <= 0`
is expressed as `amount.num ≤ 0` (a number is falsy exactly when it is 0, and
NaN cannot occur after `parseReceipt`); the `!receipt.date` test never fires
because a JS `Date` object is always truthy. -/
def telebirrValidateReceipt (r : TelebirrReceiptM) : Bool :=
  if r.reference = "" then false
  else if r.amount.num ≤ 0 then false
  else if !telebirrStatusOk r.status then false
  else if r.receiptNo = "" then false
  else true

/-- `TelebirrVerifier.verify`, from the combined fetch-and-parse outcome
(`none` covers fetch failure, the "request is not correct" page and parse
failure). -/
def telebirrVerifierVerify (parsed : Option TelebirrReceiptM) : Option TelebirrReceiptM :=
  match parsed with
  | none => none
  | some r => if telebirrValidateReceipt r then some r else none

/-- The canonical result shape returned by `verifyTelebirr`. -/
structure TelebirrResult where
  success : Bool
  payer : Option String
  receiver : Option String
  amount : Option ℚ
  reference : Option String
  error : Option String

/-- The exported `verifyTelebirr` wrapper: a `null` receipt becomes a failed
result, otherwise the receipt fields are copied into the canonical result. -/
def verifyTelebirrFrom (parsed : Option TelebirrReceiptM) : TelebirrResult :=
  match telebirrVerifierVerify parsed with
  | none =>
    { success := false, payer := none, receiver := none, amount := none,
      reference := none, error := some "Telebirr verification failed" }
  | some r =>
    { success := true, payer := some (r.payer.getD ""),
      receiver := some (r.receiver.getD ""), amount := some r.amount,
      reference := some r.reference, error := none }

/-- Word characters of the regex `\w` class. -/
def isWordChar (c : Char) : Bool := isRefChar c || c = '_'

/-- Core of `titleCase`: after lowercasing, uppercase every character that
starts a `\b\w` boundary (i.e. whose predecessor is not a word character). -/
def titleCaseAux : Bool → List Char → List Char
  | _, [] => []
  | prevWord, c :: rest =>
    if isWordChar c && !prevWord then c.toUpper :: titleCaseAux true rest
    else c :: titleCaseAux (isWordChar c) rest

/-- The shared `titleCase` helper:
`str.toLowerCase().replace(/\b\w/g, c => c.toUpperCase())`. -/
def titleCase (s : String) : String := ⟨titleCaseAux false (s.data.map Char.toLower)⟩

/-- JS `a || dflt` where `a` is an optional string and `dflt` a string. -/
def jsOrD (a : Option String) (dflt : String) : String :=
  match a with
  | some s => if s = "" then dflt else s
  | none => dflt

/-- Model of `s.replace(",", "")`: only the first comma is removed. -/
def removeFirstComma : List Char → List Char
  | [] => []
  | c :: rest => if c = ',' then rest else c :: removeFirstComma rest

/-- Outcomes of the `parseCBEReceipt` (part_012) capture groups: each field
is the trimmed capture of its regex, `none` when the pattern did not match. -/
structure CBEExtract where
  payerName : Option String
  payerAccount : Option String
  receiverName : Option String
  receiverAccount : Option String
  reference : Option String
  amountText : Option String
  dateText : Option String
  reasonText : Option String

/-- The `data` payload of a successful CBE result. -/
structure CBEData where
  payer : String
  payerAccount : String
  receiver : String
  receiverAccount : String
  amount : Option ℚ
  dateRaw : String
  reference : String
  reason : Option String

/-- The CBE `VerifyResult` shape. -/
structure CBEResult where
  success : Bool
  data : Option CBEData
  error : Option String

/-- The missing-field list `parseCBEReceipt` builds before failing, in source
push order: Payer, Receiver, Reference, Amount, Date. -/
def cbeMissing (e : CBEExtract) : List String :=
  (if jsT e.payerName then [] else ["Payer"]) ++
  (if jsT e.receiverName then [] else ["Receiver"]) ++
  (if jsT e.reference then [] else ["Reference"]) ++
  (if jsT e.amountText then [] else ["Amount"]) ++
  (if jsT e.dateText then [] else ["Date"])

/-- `parseCBEReceipt` (part_012, exported version) downstream of the regex
captures: succeeds only when payer, receiver, reference, amount and date are
all truthy, otherwise fails naming the missing fields. -/
def parseCBEReceiptFrom (e : CBEExtract) : CBEResult :=
  if jsT e.payerName && jsT e.receiverName && jsT e.reference &&
      jsT e.amountText && jsT e.dateText then
    { success := true
      data := some
        { payer := titleCase (e.payerName.getD "")
          payerAccount := jsOrD e.payerAccount "N/A"
          receiver := titleCase (e.receiverName.getD "")
          receiverAccount := jsOrD e.receiverAccount "N/A"
          amount := parseAmountText (e.amountText.getD "")
          dateRaw := ⟨removeFirstComma (e.dateText.getD "").data⟩
          reference := e.reference.getD ""
          reason := if jsT e.reasonText then e.reasonText else none }
      error := none }
  else
    { success := false, data := none,
      error := some ("Could not extract: " ++ String.intercalate ", " (cbeMissing e)) }

/-- Dashen's `extractAmount`: `null` when the regex did not match or the
captured text is falsy, `null` when the parse is NaN, the parsed number
otherwise — never a default. -/
def dashenExtractAmount (mo : Option String) : Option ℚ :=
  match mo with
  | none => none
  | some m =>
    if m = "" then none
    else
      match parseAmountText m with
      | none => none
      | some n => some n

/-- Outcomes of the `parseDashenReceipt` capture groups: the string fields
are the trimmed captures of `extract`, the amount fields the raw captures of
the `extractAmount` regexes; `none` when unmatched. -/
structure DashenExtract where
  senderName : Option String
  senderAccountNumber : Option String
  transactionChannel : Option String
  serviceType : Option String
  narrative : Option String
  receiverName : Option String
  phoneNo : Option String
  institutionName : Option String
  transactionReference : Option String
  transferReference : Option String
  dateRaw : Option String
  transactionAmountText : Option String
  serviceChargeText : Option String
  exciseTaxText : Option String
  vatText : Option String
  penaltyFeeText : Option String
  incomeTaxFeeText : Option String
  interestFeeText : Option String
  stampDutyText : Option String
  discountAmountText : Option String
  totalText : Option String

/-- The flat `DashenVerifyResult` shape. -/
structure DashenResult where
  success : Bool
  senderName : String
  senderAccountNumber : Option String
  transactionChannel : Option String
  serviceType : Option String
  narrative : Option String
  receiverName : String
  phoneNo : Option String
  institutionName : String
  transactionReference : Option String
  transferReference : Option String
  transactionDateRaw : Option String
  transactionAmount : Option ℚ
  serviceCharge : Option ℚ
  exciseTax : Option ℚ
  vat : Option ℚ
  penaltyFee : Option ℚ
  incomeTaxFee : Option ℚ
  interestFee : Option ℚ
  stampDuty : Option ℚ
  discountAmount : Option ℚ
  total : Option ℚ
  error : Option String

/-- `parseDashenReceipt` downstream of the regex captures: it returns
`success: true` unconditionally, with `null` for every unmatched field. -/
def parseDashenReceiptFrom (d : DashenExtract) : DashenResult :=
  { success := true
    senderName := titleCase (jsOrD d.senderName "")
    senderAccountNumber := d.senderAccountNumber
    transactionChannel := d.transactionChannel
    serviceType := d.serviceType
    narrative := d.narrative
    receiverName := titleCase (jsOrD d.receiverName "")
    phoneNo := d.phoneNo
    institutionName := titleCase (jsOrD d.institutionName "")
    transactionReference := d.transactionReference
    transferReference := d.transferReference
    transactionDateRaw := if jsT d.dateRaw then d.dateRaw else none
    transactionAmount := dashenExtractAmount d.transactionAmountText
    serviceCharge := dashenExtractAmount d.serviceChargeText
    exciseTax := dashenExtractAmount d.exciseTaxText
    vat := dashenExtractAmount d.vatText
    penaltyFee := dashenExtractAmount d.penaltyFeeText
    incomeTaxFee := dashenExtractAmount d.incomeTaxFeeText
    interestFee := dashenExtractAmount d.interestFeeText
    stampDuty := dashenExtractAmount d.stampDutyText
    discountAmount := dashenExtractAmount d.discountAmountText
    total := dashenExtractAmount d.totalText
    error := none }

/-- The closed provider set of `BankType` in bank.verifier.ts. -/
inductive BankType where
  | CBE
  | TELEBIRR
  | DASHEN
  | ABYSSINIA
  | MPESA
deriving DecidableEq

/-- The `VerifyPayload` fields that input validation inspects. -/
structure VerifyPayload where
  pdfBuffer : Option (List Nat)
  fileBuffer : Option (List Nat)
  filePath : Option String
  reference : Option String
  accountSuffix : Option String

/-- Where a request ends up before any document acquisition: rejected with an
error, or dispatched to the provider verifier (which is where acquisition
and network I/O begin). -/
inductive PipelineStep where
  | rejected (error : String)
  | dispatched (bank : BankType)
deriving DecidableEq

/-- The per-provider input checks of `VerificationService.verifyReceipt`
(the switch before `verifyByBank` is called): `some e` means the request is
rejected with error `e` before dispatch. -/
def serviceGate (bank : BankType) (p : VerifyPayload) : Option String :=
  match bank with
  | .CBE =>
    if !p.fileBuffer.isSome && (!jsT p.reference || !jsT p.accountSuffix) then
      some "Provide PDF file or reference with account suffix"
    else none
  | .TELEBIRR =>
    if !jsT p.reference && !p.pdfBuffer.isSome then
      some "Provide transaction reference or receipt file"
    else none
  | .ABYSSINIA =>
    if !jsT p.accountSuffix then some "Account suffix is required for Abyssinia"
    else if !jsT p.reference && !p.pdfBuffer.isSome then
      some "Provide transaction reference or receipt file"
    else none
  | .DASHEN =>
    if !jsT p.reference && !p.pdfBuffer.isSome then
      some "Provide transaction reference or receipt file"
    else none
  | .MPESA =>
    if !jsT p.reference && !p.fileBuffer.isSome && !jsT p.filePath then
      some "Provide transaction reference or receipt file"
    else none

/-- The input checks of `verifyByBank` itself, before each provider verifier
is invoked. The `verifyCBE` early check (`pdfBuffer`, else
reference + accountSuffix, else error) is part of the pre-acquisition
phase and is included here. -/
def verifyByBankGate (bank : BankType) (p : VerifyPayload) : PipelineStep :=
  match bank with
  | .CBE =>
    if p.pdfBuffer.isSome then .dispatched .CBE
    else if jsT p.reference && jsT p.accountSuffix then .dispatched .CBE
    else .rejected "No PDF or reference provided"
  | .TELEBIRR =>
    if !jsT p.reference then .rejected "Reference is required for Telebirr"
    else .dispatched .TELEBIRR
  | .ABYSSINIA =>
    if !jsT p.accountSuffix then .rejected "Account suffix is required for Abyssinia"
    else if !jsT p.reference && !p.pdfBuffer.isSome then
      .rejected "Provide transaction reference or receipt file"
    else .dispatched .ABYSSINIA
  | .DASHEN =>
    if !jsT p.reference then .rejected "Reference is required for Dashen"
    else .dispatched .DASHEN
  | .MPESA =>
    if !jsT p.reference && !p.fileBuffer.isSome && !jsT p.filePath then
      .rejected "Reference or file is required for MPESA"
    else .dispatched .MPESA

/-- The pre-acquisition phase of one verification request: the service gate,
then the dispatcher's checks. -/
def verificationPipeline (bank : BankType) (p : VerifyPayload) : PipelineStep :=
  match serviceGate bank p with
  | some e => .rejected e
  | none => verifyByBankGate bank p

/-- Model of `s.replace(/[^\d.]/g, "")`. -/
def stripNonNumeric (s : String) : String :=
  ⟨s.data.filter (fun c => c.isDigit || c = '.')⟩

/-- JS `s || dflt` on strings. -/
def jsOrDefaultStr (s dflt : String) : String := if s = "" then dflt else s

/-- The receipt object built inside `page.evaluate` by the Abyssinia
rendered-page verifier (part_005, second version). -/
structure AbyEvalReceipt where
  receiverAccount : String
  receiverName : String
  transferredAmount : Option ℚ
  transactionType : String
  transactionDate : String
  transactionReference : String
  narrative : Option String

/-- The `page.evaluate` extraction: `getText label` is the text of the table
cell following the label, `""` when the label is absent; the amount is
`parseFloat((getText("Transferred amount") || "0").replace(/[^\d.]/g, ""))` —
note the `"0"` default substituted before the numeric parse. -/
def abyEvalReceipt (getText : String → String) : AbyEvalReceipt :=
  { receiverAccount := getText "Receiver's Account"
    receiverName := getText "Receiver's Name"
    transferredAmount :=
      jsParseFloat (stripNonNumeric (jsOrDefaultStr (getText "Transferred amount") "0"))
    transactionType := getText "Transaction Type"
    transactionDate := getText "Transaction Date"
    transactionReference := getText "Transaction Reference"
    narrative := (if getText "Narrative" = "" then none else some (getText "Narrative")) }

/-- JS falsiness of a number that may be NaN (`none`): NaN and 0 are falsy. -/
def jsFalsyNumOpt (x : Option ℚ) : Bool :=
  match x with
  | none => true
  | some q => q.num = 0

/-- The missing-essential-fields list of the Abyssinia rendered-page
verifier, in source push order. -/
def abyMissing (r : AbyEvalReceipt) : List String :=
  (if r.receiverAccount = "" then ["Receiver Account"] else []) ++
  (if r.receiverName = "" then ["Receiver Name"] else []) ++
  (if jsFalsyNumOpt r.transferredAmount then ["Transferred Amount"] else []) ++
  (if r.transactionDate = "" then ["Transaction Date"] else []) ++
  (if r.transactionReference = "" then ["Transaction Reference"] else [])

/-- Result shape of the Abyssinia rendered-page verifier (success flag,
amount, classified error). -/
structure AbyEvalResult where
  success : Bool
  amount : Option ℚ
  error : Option String

/-- `verifyAbyssinia` (part_005, second version) downstream of the page
evaluation: fails naming the missing essentials, succeeds otherwise. -/
def verifyAbyssiniaEval (getText : String → String) : AbyEvalResult :=
  let r := abyEvalReceipt getText
  if !(abyMissing r).isEmpty then
    { success := false, amount := none,
      error := some ("Could not extract essential fields: "
        ++ String.intercalate ", " (abyMissing r)) }
  else { success := true, amount := r.transferredAmount, error := none }

/-- Environment of one `fetchCBEReceiptPdf` call (cbe.verifier.ts): which
external steps succeed, and the pdf URL the response listener observes. -/
structure CbeFetchEnv where
  launchOk : Bool
  gotoOk : Bool
  pdfUrlDetected : Option String
  downloadOk : Bool
  downloadIsPdf : Bool

/-- `fetchCBEReceiptPdf` (cbe.verifier.ts): the response listener assigns
`pdfUrl`, but the success guard tests `pdfResponse`, which no code path ever
assigns, so after a successful navigation the guard always throws; the
remaining steps are dead code. `Except.error` models a thrown exception
(the `finally` block closes the browser on every path). -/
def fetchCBEReceiptPdfModel (env : CbeFetchEnv) (reference accountSuffix : String) :
    Except String (List Nat) :=
  let _fullId : String := ⟨trimWsL reference.data ++ trimWsL accountSuffix.data⟩
  if !env.launchOk then Except.error "Failed to launch the browser process"
  else if !env.gotoOk then Except.error "Navigation timeout of 25000 ms exceeded"
  else
    let pdfResponse : Option Unit := none
    let pdfUrl : Option String := env.pdfUrlDetected
    if pdfResponse.isNone then
      Except.error "Receipt PDF not accessible. Reference may be invalid, expired, or blocked."
    else if pdfUrl.isNone then
      Except.error "Receipt PDF not accessible. Reference may be invalid, expired, or blocked."
    else if !env.downloadOk then Except.error "Download failed"
    else if !env.downloadIsPdf then Except.error "Downloaded file is not a valid PDF"
    else Except.ok []

/-- `verifyCBE` (cbe.verifier.ts): an uploaded buffer is parsed directly;
otherwise reference + accountSuffix trigger the fetch, whose thrown error is
caught and returned as a failed result; otherwise the request is rejected.
`parse` abstracts `parseCBEReceipt` on the fetched bytes. -/
def verifyCBE_v1 (parse : List Nat → CBEResult) (pdfBuffer : Option (List Nat))
    (reference accountSuffix : Option String) (env : CbeFetchEnv) : CBEResult :=
  match pdfBuffer with
  | some b => parse b
  | none =>
    if jsT reference && jsT accountSuffix then
      match fetchCBEReceiptPdfModel env (reference.getD "") (accountSuffix.getD "") with
      | Except.error e => { success := false, data := none, error := some e }
      | Except.ok b => parse b
    else { success := false, data := none, error := some "No PDF or reference provided" }

/-- Flat result of the part_012 scraping `verifyCBE` (only the fields the
browser-lifecycle analysis needs). -/
structure P12Result where
  success : Bool
  error : Option String

/-- Environment of one part_012 `verifyCBE` call; `parsed` is the outcome of
`parseCBEReceipt` on the downloaded bytes. -/
structure CbeScrapeEnv where
  launchOk : Bool
  gotoOk : Bool
  detectedPdfUrl : Option String
  axiosOk : Bool
  parsed : P12Result

/-- A run outcome together with whether a launched browser was still open
when the call returned. -/
structure ScrapeRun where
  result : P12Result
  browserLeaked : Bool

/-- `verifyCBE` of part_012 (first version): `browser.close()` appears only
inside the `catch` block, so the early no-PDF return and the successful
return both leave the browser open. -/
def verifyCBEScrape (env : CbeScrapeEnv) : ScrapeRun :=
  if !env.launchOk then
    { result := ⟨false, some "Both direct and Puppeteer failed: launch"⟩
      browserLeaked := false }
  else if !env.gotoOk then
    { result := ⟨false, some "Both direct and Puppeteer failed: navigation"⟩
      browserLeaked := false }
  else
    match env.detectedPdfUrl with
    | none =>
      { result := ⟨false, some "No PDF detected via Puppeteer."⟩
        browserLeaked := true }
    | some _ =>
      if !env.axiosOk then
        { result := ⟨false, some "Both direct and Puppeteer failed: download"⟩
          browserLeaked := false }
      else { result := env.parsed, browserLeaked := true }

/-- Environment of one `fetchMpesaPdf` call. -/
structure MpesaFetchEnv where
  launchOk : Bool
  gotoOk : Bool
  pdfUrl : Option String
  axiosOk : Bool

/-- `fetchMpesaPdf` (mpesa.verifier.ts): there is no try/finally, and
`browser.close()` runs only on the straight-line path after the polling
loop, so a navigation exception propagates with the browser still open. -/
def fetchMpesaPdfModel (env : MpesaFetchEnv) : Except String (List Nat) × Bool :=
  if !env.launchOk then (Except.error "launch failed", false)
  else if !env.gotoOk then (Except.error "Navigation timeout of 60000 ms exceeded", true)
  else
    match env.pdfUrl with
    | none => (Except.error "PDF not generated from M-PESA page", false)
    | some _ =>
      if !env.axiosOk then (Except.error "download failed", false)
      else (Except.ok [], false)

/-- Model of `s.trim()`. -/
def jsTrim (s : String) : String := ⟨trimWsL s.data⟩

/-- Case-insensitive prefix test (a regex literal under the `i` flag). -/
def startsWithCI (l pat : List Char) : Bool :=
  match l, pat with
  | _, [] => true
  | [], _ :: _ => false
  | a :: as, b :: bs => a.toUpper = b.toUpper && startsWithCI as bs

/-- The alternatives of the payer-noise pattern
`/SENDER|NAME|NUMBER|PHONE|TEL|ACCOUNT|ID|NO|M-PESA|THANK|YOU/gi`, in source
order (JS alternation tries them left to right at each position). -/
def mpesaNoiseWords : List (List Char) :=
  ["SENDER".data, "NAME".data, "NUMBER".data, "PHONE".data, "TEL".data,
   "ACCOUNT".data, "ID".data, "NO".data, "M-PESA".data, "THANK".data, "YOU".data]

/-- Length of the first alternative matching (case-insensitively) at the
head of `l`; `none` when no alternative matches there. -/
def noiseMatchLen (alts : List (List Char)) (l : List Char) : Option Nat :=
  match alts with
  | [] => none
  | a :: rest =>
    if !a.isEmpty && startsWithCI l a then some a.length else noiseMatchLen rest l

/-- Scanner of `candidate.replace(/SENDER|NAME|.../gi, "")`: at each position
the first matching alternative is deleted and scanning resumes after it.
`fuel` bounds the recursion; every step consumes at least one character
(matched alternatives are nonempty), so `fuel = l.length` always suffices. -/
def stripNoiseAux : Nat → List Char → List Char
  | 0, _ => []
  | _, [] => []
  | fuel + 1, c :: cs =>
    match noiseMatchLen mpesaNoiseWords (c :: cs) with
    | some n => stripNoiseAux fuel (cs.drop (n - 1))
    | none => c :: stripNoiseAux fuel cs

/-- Model of the global case-insensitive noise replace in the M-PESA payer
fallback. -/
def stripNoise (l : List Char) : List Char := stripNoiseAux l.length l

/-- ASCII letter (the `[A-Za-z]` class). -/
def isAsciiLetter (c : Char) : Bool := ('A' ≤ c && c ≤ 'Z') || ('a' ≤ c && c ≤ 'z')

/-- Test of `/^[A-Za-z]+\s+[A-Za-z]+/`: one or more letters, one or more
whitespace characters, then at least one further letter (no backtracking can
help, as the classes are disjoint). -/
def twoWordTest (l : List Char) : Bool :=
  let w1 := l.takeWhile isAsciiLetter
  let r1 := l.dropWhile isAsciiLetter
  let ws := r1.takeWhile isJsWs
  let r2 := r1.dropWhile isJsWs
  !w1.isEmpty && !ws.isEmpty &&
    (match r2 with | c :: _ => isAsciiLetter c | [] => false)

/-- `wordsBefore.slice(-5).join(" ")`: the last five words joined by single
spaces (the whole list when it is shorter). -/
def lastFiveJoined (ws : List String) : String :=
  String.intercalate " " (ws.drop (ws.length - 5))

/-- Outcomes of the `parseMpesaPdfText` regex matches on the flattened text:
each field holds the relevant match or capture text, `none` when unmatched;
`wordsBeforePhone` models
`fullText.substring(0, phoneMatch.index).split(/\s+/).filter(Boolean)`. -/
structure MpesaExtract where
  referenceMatch : Option String
  dateText : Option String
  senderNameMatch : Option (String × String)
  genericNameMatch : Option (String × String)
  phoneMatch : Option String
  wordsBeforePhone : List String
  bankMatched : Bool
  accMatch : Option String
  settledAmountText : Option String
  serviceFeeText : Option String
  vatText : Option String
  totalText : Option String
  lastAmountText : Option String
  reasonText : Option String

/-- The M-PESA result data (the canonical `VerifyResult` data fields). -/
structure MpesaData where
  payer : Option String
  payerAccount : Option String
  receiver : Option String
  receiverAccount : Option String
  amount : Option ℚ
  dateRaw : Option String
  reference : Option String
  reason : Option String
  serviceCharge : Option ℚ
  vat : Option ℚ
  totalAmount : Option ℚ

/-- The M-PESA `VerifyResult` shape. -/
structure MpesaResult where
  success : Bool
  data : Option MpesaData
  error : Option String

/-- `parseMpesaPdfText` downstream of the regex matches: the payer falls
back from the SENDER NAME match to the generic NAME match to the words
before a bare phone number (noise-stripped, trimmed and two-word-tested,
else "M-PESA User"); the total falls back to the amount before THANK YOU.
Whatever is missing, the function returns `success: true` — it has no
failure branch at all. -/
def parseMpesaPdfTextFrom (e : MpesaExtract) : MpesaResult :=
  let payerPair : Option String × Option String :=
    match e.senderNameMatch with
    | some (name, phone) => (some (jsTrim name), some (jsTrim phone))
    | none =>
      match e.genericNameMatch with
      | some (name, phone) => (some (jsTrim name), some (jsTrim phone))
      | none =>
        match e.phoneMatch with
        | some phone =>
          let candidate := lastFiveJoined e.wordsBeforePhone
          let cleaned : String := ⟨trimWsL (stripNoise candidate.data)⟩
          if twoWordTest cleaned.data then (some cleaned, some phone)
          else (some "M-PESA User", some phone)
        | none => (none, none)
  { success := true
    data := some
      { payer := payerPair.1
        payerAccount := payerPair.2
        receiver := if e.bankMatched then some "Commercial Bank of Ethiopia" else none
        receiverAccount := e.accMatch
        amount := (match e.settledAmountText with
          | some t => jsParseFloat t
          | none => none)
        dateRaw := e.dateText
        reference := e.referenceMatch
        reason := e.reasonText
        serviceCharge := (match e.serviceFeeText with
          | some t => jsParseFloat t
          | none => none)
        vat := (match e.vatText with
          | some t => jsParseFloat t
          | none => none)
        totalAmount := (match e.totalText with
          | some t => jsParseFloat t
          | none =>
            match e.lastAmountText with
            | some t => jsParseFloat t
            | none => none) }
    error := none }

end ReceiptChecker

namespace ReceiptChecker

theorem mem_collapseWsAux {c : Char} :
    ∀ {b : Bool} {l : List Char}, c ∈ collapseWsAux b l → c = ' ' ∨ (isJsWs c = false ∧ c ∈ l) := by
  intro b l
  induction l generalizing b with
  | nil => intro h; simp [collapseWsAux] at h
  | cons a tl ih =>
    intro h
    cases ha : isJsWs a with
    | true =>
      cases b with
      | true =>
        simp [collapseWsAux, ha] at h
        rcases ih h with h' | h'
        · exact Or.inl h'
        · exact Or.inr ⟨h'.1, List.mem_cons_of_mem _ h'.2⟩
      | false =>
        simp [collapseWsAux, ha] at h
        rcases h with h | h
        · exact Or.inl h
        · rcases ih h with h' | h'
          · exact Or.inl h'
          · exact Or.inr ⟨h'.1, List.mem_cons_of_mem _ h'.2⟩
    | false =>
      simp [collapseWsAux, ha] at h
      rcases h with h | h
      · subst h; exact Or.inr ⟨ha, List.mem_cons_self _ _⟩
      · rcases ih h with h' | h'
        · exact Or.inl h'
        · exact Or.inr ⟨h'.1, List.mem_cons_of_mem _ h'.2⟩

theorem head_collapseWsAux_true {c : Char} {rest : List Char} :
    ∀ {l : List Char}, collapseWsAux true l = c :: rest → isJsWs c = false := by
  intro l
  induction l with
  | nil => intro h; simp [collapseWsAux] at h
  | cons a tl ih =>
    intro h
    simp only [collapseWsAux] at h
    by_cases ha : isJsWs a
    · simp only [ha, if_true] at h
      exact ih h
    · simp only [ha, if_false, List.cons.injEq] at h
      rcases h with ⟨rfl, -⟩
      simpa using ha

theorem noAdjWs_collapseWsAux : ∀ (b : Bool) (l : List Char), noAdjWs (collapseWsAux b l) = true := by
  intro b l
  induction l generalizing b with
  | nil => simp [collapseWsAux, noAdjWs]
  | cons a tl ih =>
    simp only [collapseWsAux]
    by_cases ha : isJsWs a
    · simp only [ha, if_true]
      cases b with
      | true => simpa using ih true
      | false =>
        simp only [Bool.false_eq_true, if_false]
        rcases htl : collapseWsAux true tl with _ | ⟨c, rest⟩
        · simp [noAdjWs]
        · have hc : isJsWs c = false := head_collapseWsAux_true htl
          have := ih true
          rw [htl] at this
          simp [noAdjWs, hc, this]
    · simp only [ha, if_false]
      rcases htl : collapseWsAux false tl with _ | ⟨c, rest⟩
      · simp [noAdjWs]
      · have := ih false
        rw [htl] at this
        simp [noAdjWs, ha, this]

theorem noAdjWs_iff_chain (l : List Char) :
    noAdjWs l = true ↔ l.Chain' (fun a b => ¬(isJsWs a = true ∧ isJsWs b = true)) := by
  induction l with
  | nil => simp [noAdjWs]
  | cons a tl ih =>
    cases tl with
    | nil => simp [noAdjWs]
    | cons b rest =>
      rw [List.chain'_cons, ← ih]
      simp only [noAdjWs, Bool.and_eq_true, Bool.not_eq_true']
      constructor
      · rintro ⟨h1, h2⟩
        refine ⟨?_, h2⟩
        rintro ⟨hb1, hb2⟩
        rw [hb1, hb2] at h1
        simp at h1
      · rintro ⟨h1, h2⟩
        refine ⟨?_, h2⟩
        by_cases hb1 : isJsWs a
        · by_cases hb2 : isJsWs b
          · exact absurd ⟨hb1, hb2⟩ h1
          · simp [hb1, hb2]
        · simp [hb1]

theorem noAdjWs_tail {a : Char} {l : List Char} (h : noAdjWs (a :: l) = true) :
    noAdjWs l = true := by
  cases l with
  | nil => simp [noAdjWs]
  | cons b rest =>
    simp only [noAdjWs, Bool.and_eq_true] at h
    exact h.2

theorem noAdjWs_dropWhile (p : Char → Bool) :
    ∀ {l : List Char}, noAdjWs l = true → noAdjWs (l.dropWhile p) = true := by
  intro l
  induction l with
  | nil => intro h; simpa using h
  | cons a tl ih =>
    intro h
    rw [List.dropWhile_cons]
    by_cases hp : p a
    · simp only [hp, if_true]
      exact ih (noAdjWs_tail h)
    · simpa [hp] using h

theorem noAdjWs_reverse {l : List Char} (h : noAdjWs l = true) : noAdjWs l.reverse = true := by
  rw [noAdjWs_iff_chain] at h ⊢
  rw [List.chain'_reverse]
  exact h.imp (fun a b hab => fun ⟨x, y⟩ => hab ⟨y, x⟩)

theorem head?_dropWhile (p : Char → Bool) :
    ∀ {l : List Char} {c : Char}, (l.dropWhile p).head? = some c → p c = false := by
  intro l
  induction l with
  | nil => intro c h; simp at h
  | cons a tl ih =>
    intro c h
    rw [List.dropWhile_cons] at h
    cases hp : p a with
    | true =>
      rw [hp] at h
      simp at h
      exact ih h
    | false =>
      rw [hp] at h
      simp at h
      subst h
      exact hp

theorem getLast?_dropWhile (p : Char → Bool) :
    ∀ {l : List Char}, l.dropWhile p ≠ [] → (l.dropWhile p).getLast? = l.getLast? := by
  intro l
  induction l with
  | nil => intro h; simp at h
  | cons a tl ih =>
    intro h
    rw [List.dropWhile_cons] at h ⊢
    by_cases hp : p a
    · simp only [hp, if_true] at h ⊢
      rw [ih h]
      have htl : tl ≠ [] := by
        intro hnil
        rw [hnil] at h
        simp at h
      cases tl with
      | nil => exact absurd rfl htl
      | cons b rest => simp [List.getLast?_cons_cons]
    · simp [hp]

theorem mem_trimWsL {c : Char} {l : List Char} (h : c ∈ trimWsL l) : c ∈ l := by
  unfold trimWsL at h
  rw [List.mem_reverse] at h
  have h1 := (List.dropWhile_sublist (l := (l.dropWhile isJsWs).reverse) (p := isJsWs)).subset h
  rw [List.mem_reverse] at h1
  exact (List.dropWhile_sublist (l := l) (p := isJsWs)).subset h1

theorem noAdjWs_trimWsL {l : List Char} (h : noAdjWs l = true) : noAdjWs (trimWsL l) = true := by
  unfold trimWsL
  exact noAdjWs_reverse (noAdjWs_dropWhile _ (noAdjWs_reverse (noAdjWs_dropWhile _ h)))

theorem head?_trimWsL {c : Char} {l : List Char} (h : (trimWsL l).head? = some c) :
    isJsWs c = false := by
  unfold trimWsL at h
  rw [List.head?_reverse] at h
  have hb : (l.dropWhile isJsWs).reverse.dropWhile isJsWs ≠ [] := by
    intro hnil
    rw [hnil] at h
    simp at h
  rw [getLast?_dropWhile _ hb, List.getLast?_reverse] at h
  exact head?_dropWhile _ h

theorem getLast?_trimWsL {c : Char} {l : List Char} (h : (trimWsL l).getLast? = some c) :
    isJsWs c = false := by
  unfold trimWsL at h
  rw [List.getLast?_reverse] at h
  exact head?_dropWhile _ h

theorem filter_collapseWsAux :
    ∀ (b : Bool) (l : List Char),
      (collapseWsAux b l).filter (fun c => !isJsWs c) = l.filter (fun c => !isJsWs c) := by
  intro b l
  induction l generalizing b with
  | nil => simp [collapseWsAux]
  | cons a tl ih =>
    cases ha : isJsWs a with
    | true =>
      cases b with
      | true => simp [collapseWsAux, List.filter_cons, ha, ih true]
      | false =>
        simp [collapseWsAux, List.filter_cons, ha, ih true,
          (by decide : isJsWs ' ' = true)]
    | false => simp [collapseWsAux, List.filter_cons, ha, ih false]

theorem filter_dropWhileWs (l : List Char) :
    (l.dropWhile isJsWs).filter (fun c => !isJsWs c) = l.filter (fun c => !isJsWs c) := by
  induction l with
  | nil => simp
  | cons a tl ih =>
    rw [List.dropWhile_cons]
    by_cases ha : isJsWs a
    · simp [ha, List.filter_cons, ih]
    · simp [ha]

theorem filter_trimWsL (l : List Char) :
    (trimWsL l).filter (fun c => !isJsWs c) = l.filter (fun c => !isJsWs c) := by
  unfold trimWsL
  rw [List.filter_reverse, filter_dropWhileWs, List.filter_reverse, List.reverse_reverse,
    filter_dropWhileWs]

theorem isNormalizedWs_of_trim_collapse (l : List Char) :
    isNormalizedWs (trimWsL (collapseWs l)) = true := by
  unfold isNormalizedWs
  simp only [Bool.and_eq_true]
  refine ⟨⟨⟨?_, ?_⟩, ?_⟩, ?_⟩
  · rw [List.all_eq_true]
    intro c hc
    rcases mem_collapseWsAux (mem_trimWsL hc) with h | h
    · simp [h]
    · simp [h.1]
  · exact noAdjWs_trimWsL (noAdjWs_collapseWsAux false l)
  · rcases hh : (trimWsL (collapseWs l)).head? with _ | c
    · simp
    · simpa using head?_trimWsL hh
  · rcases hh : (trimWsL (collapseWs l)).getLast? with _ | c
    · simp
    · simpa using getLast?_trimWsL hh

theorem map_nbsp_collapseWs (l : List Char) :
    (collapseWs l).map (fun c => if c = ' ' then ' ' else c) = collapseWs l := by
  have : ∀ c ∈ collapseWs l, (fun c => if c = ' ' then ' ' else c) c = id c := by
    intro c hc
    rcases mem_collapseWsAux hc with h | h
    · subst h; decide
    · have : ¬(c = ' ') := by
        intro hnb
        rw [hnb] at h
        exact absurd h.1 (by decide)
      simp [this]
  rw [List.map_congr_left this, List.map_id]

/-- C8: RawText normalization (CBE `parseCBEReceipt` and Abyssinia `clean`)
collapses every whitespace run (including non-breaking spaces) to a single
plain space, removes leading and trailing whitespace, and preserves all
non-whitespace characters in order. -/
theorem rawtext_whitespace_normalized :
    (∀ s : String, isNormalizedWs (cbeNormalize s).data = true
      ∧ (cbeNormalize s).data.filter (fun c => !isJsWs c) = s.data.filter (fun c => !isJsWs c))
    ∧ (∀ s : String, isNormalizedWs (abyssiniaClean s).data = true
      ∧ (abyssiniaClean s).data.filter (fun c => !isJsWs c) = s.data.filter (fun c => !isJsWs c)) := by
  constructor
  · intro s
    refine ⟨isNormalizedWs_of_trim_collapse s.data, ?_⟩
    show (trimWsL (collapseWs s.data)).filter _ = _
    rw [filter_trimWsL, collapseWs, filter_collapseWsAux]
  · intro s
    constructor
    · show isNormalizedWs (trimWsL ((collapseWs s.data).map _)) = true
      rw [map_nbsp_collapseWs]
      exact isNormalizedWs_of_trim_collapse s.data
    · show (trimWsL ((collapseWs s.data).map _)).filter _ = _
      rw [map_nbsp_collapseWs, filter_trimWsL, collapseWs, filter_collapseWsAux]

/-- C7: amount parsing is invariant under thousands-separator placement: any
two amount strings that agree after deleting commas parse to the same value,
and in particular "1,234.50" and "1234.50" both parse to 1234.50. -/
theorem amount_parse_comma_invariant :
    (∀ s₁ s₂ : String,
        s₁.data.filter (fun c => !(c = ',')) = s₂.data.filter (fun c => !(c = ',')) →
        parseAmountText s₁ = parseAmountText s₂)
    ∧ parseAmountText "1,234.50" = some (mkRat 2469 2)
    ∧ parseAmountText "1234.50" = some (mkRat 2469 2)
    ∧ (mkRat 2469 2).num = 2469 ∧ (mkRat 2469 2).den = 2 := by
  refine ⟨?_, by decide, by decide, by decide, by decide⟩
  intro s₁ s₂ h
  simp only [parseAmountText, jsParseFloat, stripCommas]
  rw [h]

/-- Witness for C7 at the spec's concrete pair of amount strings. -/
theorem amount_parse_comma_invariant_witness :
    parseAmountText "1,234.50" = parseAmountText "1234.50" :=
  amount_parse_comma_invariant.1 "1,234.50" "1234.50" (by decide)

/-- C9: reference extraction from extracted document text is deterministic:
two runs of the M-PESA (or Abyssinia) reference-pattern search on the same
text return the same uppercased match or the same absence. -/
theorem reference_extraction_deterministic :
    (∀ (t : String) (r₁ r₂ : Option String),
        mpesaExtractReference t = r₁ → mpesaExtractReference t = r₂ → r₁ = r₂)
    ∧ (∀ (t : String) (r₁ r₂ : Option String),
        abyssiniaExtractReference t = r₁ → abyssiniaExtractReference t = r₂ → r₁ = r₂) := by
  constructor <;> (intro t r₁ r₂ h1 h2; rw [← h1, ← h2])

/-- Witness for C9 on a concrete M-PESA receipt text (note the lowercase
match is uppercased). -/
theorem reference_extraction_deterministic_witness :
    (some "UBH1234567" : Option String) = some "UBH1234567" :=
  reference_extraction_deterministic.1 "paid via ubh1234567 today"
    (some "UBH1234567") (some "UBH1234567") (by decide) (by decide)

/-- C2 counterexample: a verification request carrying both an explicit
reference and a file is resolved by `verifyMPesa` to the reference found in
the file, not the caller-supplied one. -/
theorem explicit_reference_precedence_counterexample :
    mpesaResolveReference (some "ABC123") (some "paid via UBH1234567 today")
      = Except.ok "UBH1234567"
    ∧ ("UBH1234567" : String) ≠ "ABC123" := by
  exact ⟨rfl, by decide⟩

/-- C2 amended: Dashen resolves a truthy explicit reference (trimmed and
uppercased) without inspecting the file, but M-PESA prefers a reference
extracted from the file over the explicit one, and Abyssinia always replaces
the explicit reference with the file-extracted one when a file is supplied. -/
theorem reference_precedence_per_provider :
    (∀ (r : String) (file : Option (Option String)),
        r ≠ "" → jsTrimUpper r ≠ "" →
        dashenResolveReference (some r) file = Except.ok (jsTrimUpper r))
    ∧ (∀ (er : Option String) (t fr : String),
        mpesaExtractReference t = some fr → fr ≠ "" →
        mpesaResolveReference er (some t) = Except.ok fr)
    ∧ (∀ (refr sfx t fr : String),
        abyssiniaExtractReference t = some fr → fr ≠ "" → sfx ≠ "" →
        abyssiniaResolveReference refr sfx (some t) = Except.ok fr) := by
  refine ⟨?_, ?_, ?_⟩
  · intro r file hr htr
    simp [dashenResolveReference, jsT, hr, htr]
  · intro er t fr hx hfr
    simp [mpesaResolveReference, hx, jsT, jsOrStr, hfr]
  · intro refr sfx t fr hx hfr hsfx
    simp [abyssiniaResolveReference, hx, hfr, hsfx]

/-- Witness for the amended C2 at concrete inputs for all three providers. -/
theorem reference_precedence_per_provider_witness :
    dashenResolveReference (some "dash-77x") (some (some "FILEREF123"))
      = Except.ok (jsTrimUpper "dash-77x")
    ∧ mpesaResolveReference (some "ABC") (some "x UBH1234567")
      = Except.ok "UBH1234567"
    ∧ abyssiniaResolveReference "EXPLICIT" "12345678" (some "q FT1234567890 z")
      = Except.ok "FT1234567890" :=
  ⟨reference_precedence_per_provider.1 "dash-77x" (some (some "FILEREF123"))
      (by decide) (by decide),
   reference_precedence_per_provider.2.1 (some "ABC") "x UBH1234567" "UBH1234567"
      (by decide) (by decide),
   reference_precedence_per_provider.2.2 "EXPLICIT" "12345678" "q FT1234567890 z"
      "FT1234567890" (by decide) (by decide) (by decide)⟩

theorem telebirrValidate_imp {r : TelebirrReceiptM}
    (h : telebirrValidateReceipt r = true) :
    telebirrStatusOk r.status = true ∧ 0 < r.amount := by
  unfold telebirrValidateReceipt at h
  by_cases h1 : r.reference = ""
  · rw [if_pos h1] at h
    exact Bool.noConfusion h
  · rw [if_neg h1] at h
    by_cases h2 : r.amount.num ≤ 0
    · rw [if_pos h2] at h
      exact Bool.noConfusion h
    · rw [if_neg h2] at h
      by_cases h3 : (!telebirrStatusOk r.status) = true
      · rw [if_pos h3] at h
        exact Bool.noConfusion h
      · exact ⟨by simpa using h3, Rat.num_pos.mp (lt_of_not_le h2)⟩

/-- C10: Telebirr verification succeeds only for receipts whose status
contains "success", "paid" or "complete" (case-insensitively) and whose
amount is strictly positive; a receipt failing either condition yields
success:false even when all other fields were extracted. -/
theorem telebirr_success_requires_status_and_amount :
    (∀ parsed : Option TelebirrReceiptM,
        (verifyTelebirrFrom parsed).success = true →
        ∃ r, parsed = some r ∧ telebirrStatusOk r.status = true ∧ 0 < r.amount)
    ∧ (∀ r : TelebirrReceiptM,
        telebirrStatusOk r.status = false ∨ r.amount ≤ 0 →
        (verifyTelebirrFrom (some r)).success = false) := by
  constructor
  · intro parsed h
    match parsed with
    | none => simp [verifyTelebirrFrom, telebirrVerifierVerify] at h
    | some r =>
      refine ⟨r, rfl, ?_⟩
      cases hv : telebirrValidateReceipt r with
      | false => simp [verifyTelebirrFrom, telebirrVerifierVerify, hv] at h
      | true => exact telebirrValidate_imp hv
  · intro r hbad
    cases hv : telebirrValidateReceipt r with
    | false => simp [verifyTelebirrFrom, telebirrVerifierVerify, hv]
    | true =>
      rcases telebirrValidate_imp hv with ⟨hs, ha⟩
      rcases hbad with hb | hb
      · rw [hs] at hb; exact Bool.noConfusion hb
      · exact absurd ha (not_lt.mpr hb)

/-- Witness for C10: a completed positive-amount receipt passes, a receipt
with status "Failed" is rejected. -/
theorem telebirr_success_requires_status_and_amount_witness :
    (∃ r, (some (⟨"DB12345678", "DB12345678", mkRat 100 1, none, none,
          "Completed", "2024-01-01 10:30:00"⟩ : TelebirrReceiptM)) = some r
        ∧ telebirrStatusOk r.status = true ∧ 0 < r.amount)
    ∧ (verifyTelebirrFrom (some (⟨"DB12345678", "DB12345678", mkRat 100 1, none,
        none, "Failed", "2024-01-01 10:30:00"⟩ : TelebirrReceiptM))).success = false :=
  ⟨telebirr_success_requires_status_and_amount.1
      (some ⟨"DB12345678", "DB12345678", mkRat 100 1, none, none,
        "Completed", "2024-01-01 10:30:00"⟩) (by decide),
   telebirr_success_requires_status_and_amount.2
      ⟨"DB12345678", "DB12345678", mkRat 100 1, none, none,
        "Failed", "2024-01-01 10:30:00"⟩ (Or.inl (by decide))⟩

/-- C1 counterexample: the Dashen parser returns success:true with every
field, including its reference and amount, absent — so for any nonempty
mandatory field subset the claim fails on the Dashen provider. -/
theorem mandatory_fields_counterexample :
    (parseDashenReceiptFrom ⟨none, none, none, none, none, none, none, none,
        none, none, none, none, none, none, none, none, none, none, none, none,
        none⟩).success = true
    ∧ (parseDashenReceiptFrom ⟨none, none, none, none, none, none, none, none,
        none, none, none, none, none, none, none, none, none, none, none, none,
        none⟩).transactionReference = none
    ∧ (parseDashenReceiptFrom ⟨none, none, none, none, none, none, none, none,
        none, none, none, none, none, none, none, none, none, none, none, none,
        none⟩).transactionAmount = none :=
  ⟨rfl, rfl, rfl⟩

/-- C1 amended: the CBE parser enforces its mandatory subset (payer,
receiver, reference, amount, date), failing with an error that names exactly
the missing fields, and succeeding only when all five were extracted; the
Dashen and M-PESA parsers return success:true regardless of missing fields
(shown for every extraction outcome, and the M-PESA parser with nothing
matched still succeeds with null in every data field). -/
theorem mandatory_fields_enforced_amended :
    (∀ e : CBEExtract,
        ((parseCBEReceiptFrom e).success = true ↔ cbeMissing e = [])
        ∧ (cbeMissing e ≠ [] →
            (parseCBEReceiptFrom e).error
              = some ("Could not extract: " ++ String.intercalate ", " (cbeMissing e)))
        ∧ ((cbeMissing e).contains "Payer" = !jsT e.payerName)
        ∧ ((cbeMissing e).contains "Receiver" = !jsT e.receiverName)
        ∧ ((cbeMissing e).contains "Reference" = !jsT e.reference)
        ∧ ((cbeMissing e).contains "Amount" = !jsT e.amountText)
        ∧ ((cbeMissing e).contains "Date" = !jsT e.dateText))
    ∧ (∀ d : DashenExtract, (parseDashenReceiptFrom d).success = true)
    ∧ (∀ m : MpesaExtract, (parseMpesaPdfTextFrom m).success = true)
    ∧ (parseMpesaPdfTextFrom
          ⟨none, none, none, none, none, [], false, none, none, none, none,
            none, none, none⟩
        = { success := true
            data := some ⟨none, none, none, none, none, none, none, none,
              none, none, none⟩
            error := none }) := by
  refine ⟨?_, fun d => rfl, fun m => rfl, rfl⟩
  intro e
  cases h1 : jsT e.payerName <;> cases h2 : jsT e.receiverName <;>
    cases h3 : jsT e.reference <;> cases h4 : jsT e.amountText <;>
    cases h5 : jsT e.dateText <;>
    simp [parseCBEReceiptFrom, cbeMissing, h1, h2, h3, h4, h5]

/-- Witness for the amended C1: with nothing extracted, the CBE parser's
error names all five mandatory fields. -/
theorem mandatory_fields_enforced_amended_witness :
    (parseCBEReceiptFrom ⟨none, none, none, none, none, none, none, none⟩).error
      = some ("Could not extract: " ++ String.intercalate ", "
          (cbeMissing ⟨none, none, none, none, none, none, none, none⟩)) :=
  (mandatory_fields_enforced_amended.1
      ⟨none, none, none, none, none, none, none, none⟩).2.1 (by decide)

/-- C3: a request that carries neither a reference nor a file — or misses a
provider minimum such as the Abyssinia account suffix — is rejected with a
missing-input error by the pre-acquisition checks, before the provider
verifier (and hence any document acquisition or network call) is reached. -/
theorem missing_input_rejected_before_acquisition :
    (∀ (bank : BankType) (p : VerifyPayload),
        jsT p.reference = false → p.pdfBuffer = none → p.fileBuffer = none →
        jsT p.filePath = false →
        ∃ e, verificationPipeline bank p = PipelineStep.rejected e)
    ∧ (∀ p : VerifyPayload, jsT p.accountSuffix = false →
        verificationPipeline BankType.ABYSSINIA p
          = PipelineStep.rejected "Account suffix is required for Abyssinia") := by
  constructor
  · intro bank p h1 h2 h3 h4
    cases bank with
    | CBE =>
      exact ⟨"Provide PDF file or reference with account suffix",
        by simp [verificationPipeline, serviceGate, h1, h2, h3, h4]⟩
    | TELEBIRR =>
      exact ⟨"Provide transaction reference or receipt file",
        by simp [verificationPipeline, serviceGate, h1, h2, h3, h4]⟩
    | DASHEN =>
      exact ⟨"Provide transaction reference or receipt file",
        by simp [verificationPipeline, serviceGate, h1, h2, h3, h4]⟩
    | MPESA =>
      exact ⟨"Provide transaction reference or receipt file",
        by simp [verificationPipeline, serviceGate, h1, h2, h3, h4]⟩
    | ABYSSINIA =>
      cases hs : jsT p.accountSuffix with
      | false =>
        exact ⟨"Account suffix is required for Abyssinia",
          by simp [verificationPipeline, serviceGate, hs]⟩
      | true =>
        exact ⟨"Provide transaction reference or receipt file",
          by simp [verificationPipeline, serviceGate, h1, h2, h3, h4, hs]⟩
  · intro p hs
    simp [verificationPipeline, serviceGate, hs]

/-- Witness for C3: the empty payload is rejected for Dashen, and a payload
with a reference but no account suffix is rejected for Abyssinia. -/
theorem missing_input_rejected_before_acquisition_witness :
    (∃ e, verificationPipeline BankType.DASHEN ⟨none, none, none, none, none⟩
        = PipelineStep.rejected e)
    ∧ verificationPipeline BankType.ABYSSINIA ⟨none, none, none, some "FT123", none⟩
        = PipelineStep.rejected "Account suffix is required for Abyssinia" :=
  ⟨missing_input_rejected_before_acquisition.1 BankType.DASHEN
      ⟨none, none, none, none, none⟩ (by decide) rfl rfl (by decide),
   missing_input_rejected_before_acquisition.2
      ⟨none, none, none, some "FT123", none⟩ (by decide)⟩

/-- C4 counterexample: the Abyssinia rendered-page extractor substitutes
"0" for a missing amount label before the numeric parse, so the extracted
amount field is the number 0, not null/absent. -/
theorem amount_zero_default_counterexample :
    (abyEvalReceipt (fun _ => "")).transferredAmount = some 0 := by decide

/-- C4 amended: the Dashen/Awash `extractAmount` yields null when the amount
is absent or unparseable and never substitutes a default; the Abyssinia
rendered-page path however defaults a missing amount to "0", producing the
number 0 — which its own falsy-check then treats as a missing field, so the
verification still fails rather than reporting a zero amount. -/
theorem amount_absent_handling_amended :
    (dashenExtractAmount none = none)
    ∧ (∀ m : String, parseAmountText m = none → dashenExtractAmount (some m) = none)
    ∧ ((abyEvalReceipt (fun _ => "")).transferredAmount = some 0)
    ∧ ((verifyAbyssiniaEval (fun _ => "")).success = false)
    ∧ ("Transferred Amount" ∈ abyMissing (abyEvalReceipt (fun _ => ""))) := by
  refine ⟨rfl, ?_, by decide, by decide, by decide⟩
  intro m hm
  by_cases hme : m = ""
  · simp [dashenExtractAmount, hme]
  · simp [dashenExtractAmount, hme, hm]

/-- Witness for the amended C4: an unparseable captured amount yields null. -/
theorem amount_absent_handling_amended_witness :
    dashenExtractAmount (some "N/A") = none :=
  amount_absent_handling_amended.2.1 "N/A" (by decide)

theorem fetchCBE1_always_error (env : CbeFetchEnv) (r s : String) :
    ∃ e, fetchCBEReceiptPdfModel env r s = Except.error e := by
  unfold fetchCBEReceiptPdfModel
  cases env.launchOk <;> cases env.gotoOk <;> simp

/-- C5: in the CBE by-reference path the success guard tests `pdfResponse`,
which no handler ever assigns, so whenever the navigation itself succeeds
the fetch raises exactly the "Receipt PDF not accessible" error; the fetch
never returns a buffer on any environment, and `verifyCBE` called with only
a reference and suffix always returns success:false. -/
theorem cbe_reference_fetch_dead_guard :
    (∀ (env : CbeFetchEnv) (r s : String),
        env.launchOk = true → env.gotoOk = true →
        fetchCBEReceiptPdfModel env r s = Except.error
          "Receipt PDF not accessible. Reference may be invalid, expired, or blocked.")
    ∧ (∀ (env : CbeFetchEnv) (r s : String),
        ∃ e, fetchCBEReceiptPdfModel env r s = Except.error e)
    ∧ (∀ (parse : List Nat → CBEResult) (env : CbeFetchEnv) (r s : Option String),
        (verifyCBE_v1 parse none r s env).success = false) := by
  refine ⟨?_, fetchCBE1_always_error, ?_⟩
  · intro env r s h1 h2
    simp [fetchCBEReceiptPdfModel, h1, h2]
  · intro parse env r s
    rcases fetchCBE1_always_error env (r.getD "") (s.getD "") with ⟨e, he⟩
    by_cases hc : (jsT r && jsT s) = true
    · simp [verifyCBE_v1, hc, he]
    · simp [verifyCBE_v1, hc]

/-- Witness for C5 at a concrete environment where everything external
succeeds: the guard still raises the dead-variable error. -/
theorem cbe_reference_fetch_dead_guard_witness :
    fetchCBEReceiptPdfModel ⟨true, true, some "u", true, true⟩ "FT123" "12345678"
      = Except.error
          "Receipt PDF not accessible. Reference may be invalid, expired, or blocked." :=
  cbe_reference_fetch_dead_guard.1 ⟨true, true, some "u", true, true⟩
    "FT123" "12345678" rfl rfl

/-- C6: the part_012 `verifyCBE` returns its successful parse result with
the browser still open (it closes the browser only in the catch block), and
likewise leaves it open on the early no-PDF return; `fetchMpesaPdf` leaves
the browser open when navigation throws. -/
theorem browser_leak_on_exit_paths :
    ((verifyCBEScrape ⟨true, true, some "u", true, ⟨true, none⟩⟩).result.success = true
      ∧ (verifyCBEScrape ⟨true, true, some "u", true, ⟨true, none⟩⟩).browserLeaked = true)
    ∧ (verifyCBEScrape ⟨true, true, none, true, ⟨true, none⟩⟩).browserLeaked = true
    ∧ (fetchMpesaPdfModel ⟨true, false, none, true⟩).2 = true :=
  ⟨⟨rfl, rfl⟩, rfl, rfl⟩

end ReceiptChecker
